import Mathlib

/-
Verification development for the Employee Handbook fax service
(functions sendFax, sendFaxDirect, monitorFaxStatus and the seed/static
server around them).  The fax-job lifecycle is embedded shallowly:

  * the faxJobs collection is a map from string keys to optional FaxJob
    documents; a Firestore `set` without options is a full replace, a
    `set` with merge updates exactly the supplied fields;
  * the per-message body of the monitorFaxStatus loop is embedded as
    `processMessage`, including the subject regex FAXDONE:([^:]+):(\w+),
    the HTML-tag stripping replace, the split on the bar character and
    the trailing-period strip;
  * `sendFax` and `sendFaxDirect` are embedded as functions from the
    request, the store directory, the configuration, the clock instant
    and the mail-transport outcome to an HTTP-style response, the final
    collection states and an ordered list of side effects;
  * timestamps (Firestore serverTimestamp) are plain naturals passed in;
  * Date.prototype.toISOString is modelled for the four-digit-year range
    (the range every realistic clock instant of this service lies in).
-/

namespace Acknowledge

/-! ## The faxJobs document model -/

/-- One document of the faxJobs collection.  Every field is optional
because Firestore documents are free-form: a field is `none` when the
document does not carry it. -/
structure FaxJob where
  trackingId : Option String
  faxKey : Option String
  status : Option String
  requesterEmail : Option String
  storeNumber : Option String
  faxNumber : Option String
  createdAt : Option Nat
  updatedAt : Option Nat
deriving DecidableEq

/-- The document with no fields, used as the base of a merge-upsert. -/
def emptyJob : FaxJob :=
  { trackingId := none, faxKey := none, status := none, requesterEmail := none,
    storeNumber := none, faxNumber := none, createdAt := none, updatedAt := none }

/-- The faxJobs collection: key to optional document. -/
def FaxJobs := String → Option FaxJob

/-- The collection with no documents. -/
def emptyJobs : FaxJobs := fun _ => none

/-- Store a document under a key (the result of any Firestore set). -/
def setJob (s : FaxJobs) (k : String) (j : FaxJob) : FaxJobs :=
  fun k2 => if k2 = k then some j else s k2

/-! ## JavaScript string primitives used by monitorFaxStatus -/

/-- Whitespace removed by String.prototype.trim (the ASCII part; the
messages this service handles are ASCII). -/
def isJsSpace (c : Char) : Bool :=
  c = ' ' || c = '\t' || c = '\n' || c = '\r' || c = '\x0b' || c = '\x0c'

/-- Model of String.prototype.trim. -/
def jsTrim (l : List Char) : List Char :=
  ((l.dropWhile isJsSpace).reverse.dropWhile isJsSpace).reverse

/-- A word character, the regex class backslash-w. -/
def isWordChar (c : Char) : Bool :=
  c.isAlphanum || c = '_'

/-- Drop characters up to and including the first closing angle bracket. -/
def dropThroughGt : List Char → List Char
  | [] => []
  | c :: rest => if c = '>' then rest else dropThroughGt rest

/-- Fuel-driven worker for `stripTags`; with fuel at least the length
of the list the fuel never runs out, and structural recursion on the
fuel keeps the function kernel-reducible. -/
def stripTagsAux : Nat → List Char → List Char
  | 0, _ => []
  | _ + 1, [] => []
  | fuel + 1, c :: rest =>
    if c = '<' && rest.contains '>' then
      stripTagsAux fuel (dropThroughGt rest)
    else
      c :: stripTagsAux fuel rest

/-- Model of replace with the global regex matching a literal opening
angle bracket, then any characters other than a closing one, then a
closing angle bracket, replaced by the empty string: each match runs
from an opening bracket to the nearest following closing bracket; an
opening bracket with no closing bracket after it stays. -/
def stripTags (l : List Char) : List Char :=
  stripTagsAux l.length l

/-- Model of split on the bar character: always at least one field,
empty fields preserved. -/
def splitOnBar : List Char → List (List Char)
  | [] => [[]]
  | c :: rest =>
    if c = '|' then
      [] :: splitOnBar rest
    else
      match splitOnBar rest with
      | [] => [[c]]
      | h :: t => (c :: h) :: t

/-- Model of replace of a trailing-period-anchored regex by the empty
string: remove one trailing period when present. -/
def stripTrailingDot (l : List Char) : List Char :=
  match l.getLast? with
  | some '.' => l.dropLast
  | _ => l

/-! ## The FAXDONE subject regex -/

/-- The literal part of the subject regex. -/
def faxdoneTag : List Char := ['F', 'A', 'X', 'D', 'O', 'N', 'E', ':']

/-- Attempt of the two capture groups right after the literal tag: a
nonempty run of non-colon characters, a colon, then a nonempty run of
word characters.  The greedy first group cannot give back characters
usefully because none of them can match the required colon, so the
first group is exactly the run up to the first colon. -/
def parseAfterTag (l : List Char) : Option (List Char × List Char) :=
  let key := l.takeWhile fun c => c ≠ ':'
  match l.dropWhile fun c => c ≠ ':' with
  | ':' :: after =>
    let st := after.takeWhile isWordChar
    if key.isEmpty || st.isEmpty then none else some (key, st)
  | _ => none

/-- Model of String.prototype.match with the FAXDONE regex: scan left
to right for a position where the whole pattern matches, returning the
two capture groups of the first such position. -/
def matchFaxdone : List Char → Option (List Char × List Char)
  | [] => none
  | c :: rest =>
    if (c :: rest).take 8 = faxdoneTag then
      match parseAfterTag ((c :: rest).drop 8) with
      | some r => some r
      | none => matchFaxdone rest
    else
      matchFaxdone rest

/-! ## The per-message body of monitorFaxStatus -/

/-- The values monitorFaxStatus extracts from one message. -/
structure PolledUpdate where
  faxKey : String
  status : String
  requesterEmail : String
  trackingId : String
deriving DecidableEq

/-- Parsing step of the monitorFaxStatus loop body: subject against the
FAXDONE regex (skip the message when it does not match), then the first
line of the trimmed body, HTML tags stripped, split on the bar, first
field the requester email, second field the tracking id with one
trailing period removed. -/
def parsePolled (subject body : String) : Option PolledUpdate :=
  match matchFaxdone subject.toList with
  | none => none
  | some (k, st) =>
    let bodyTrim := jsTrim body.toList
    let firstLine := jsTrim (bodyTrim.takeWhile fun c => c ≠ '\n')
    let cleanLine := stripTags firstLine
    let parts := splitOnBar cleanLine
    some { faxKey := (jsTrim k).asString,
           status := (jsTrim st).asString,
           requesterEmail := (jsTrim (parts.headD [])).asString,
           trackingId := (stripTrailingDot (jsTrim ((parts.drop 1).headD []))).asString }

/-- The first merge-set of the loop body, keyed by the fax key: fields
faxKey, status, requesterEmail and updatedAt, merge semantics (upsert
from the empty document when the key is absent). -/
def mergeFaxKeyWrite (u : PolledUpdate) (t : Nat) (j : Option FaxJob) : FaxJob :=
  { j.getD emptyJob with
      faxKey := some u.faxKey, status := some u.status,
      requesterEmail := some u.requesterEmail, updatedAt := some t }

/-- The second merge-set of the loop body, keyed by the tracking id:
fields faxKey, trackingId, status, requesterEmail and updatedAt, merge
semantics. -/
def mergeTrackingWrite (u : PolledUpdate) (t : Nat) (j : Option FaxJob) : FaxJob :=
  { j.getD emptyJob with
      faxKey := some u.faxKey, trackingId := some u.trackingId,
      status := some u.status, requesterEmail := some u.requesterEmail,
      updatedAt := some t }

/-- The write step of the loop body: merge under the fax key, then,
when the tracking id is a nonempty string (JavaScript truthiness),
merge under the tracking id. -/
def applyPolled (u : PolledUpdate) (t : Nat) (s : FaxJobs) : FaxJobs :=
  let s1 := setJob s u.faxKey (mergeFaxKeyWrite u t (s u.faxKey))
  if u.trackingId = "" then s1
  else setJob s1 u.trackingId (mergeTrackingWrite u t (s1 u.trackingId))

/-- One iteration of the monitorFaxStatus message loop on the faxJobs
collection: parse, then write; a message whose subject does not match
is skipped. -/
def processMessage (subject body : String) (t : Nat) (s : FaxJobs) : FaxJobs :=
  match parsePolled subject body with
  | none => s
  | some u => applyPolled u t s

/-- The whole monitorFaxStatus sweep over its fetched messages, each a
subject and body pair, applied in order at one sweep timestamp. -/
def monitorFaxStatus (messages : List (String × String)) (t : Nat) (s : FaxJobs) : FaxJobs :=
  messages.foldl (fun st m => processMessage m.1 m.2 t st) s

/-! ## Tracking-id generation -/

/-- A UTC clock instant with the components toISOString prints. -/
structure UtcTime where
  year : Nat
  month : Nat
  day : Nat
  hour : Nat
  minute : Nat
  second : Nat
  ms : Nat
deriving DecidableEq

/-- The character of one decimal digit. -/
def digitChar (d : Nat) : Char := Char.ofNat (48 + d)

/-- Fuel-driven most-significant-first decimal rendering. -/
def toDecimalAux : Nat → Nat → List Char
  | 0, _ => []
  | fuel + 1, n =>
    if n < 10 then [digitChar n]
    else toDecimalAux fuel (n / 10) ++ [digitChar (n % 10)]

/-- Decimal digit characters of a natural number. -/
def natChars (n : Nat) : List Char := toDecimalAux (n + 1) n

/-- Zero-pad a decimal rendering on the left to the given width, as
toISOString does for each date component. -/
def padTo (k n : Nat) : List Char :=
  List.replicate (k - (natChars n).length) '0' ++ natChars n

/-- Model of Date.prototype.toISOString for instants whose year has at
most four digits (the range every run of this service lies in; the
expanded-year printing for other years is outside the model). -/
def isoChars (d : UtcTime) : List Char :=
  padTo 4 d.year ++ ['-'] ++ padTo 2 d.month ++ ['-'] ++ padTo 2 d.day ++ ['T']
    ++ padTo 2 d.hour ++ [':'] ++ padTo 2 d.minute ++ [':'] ++ padTo 2 d.second
    ++ ['.'] ++ padTo 3 d.ms ++ ['Z']

/-- Characters removed by the global character-class regex of the
tracking-id expression: minus, colon, letter T, period, letter Z. -/
def removedByRegex (c : Char) : Bool :=
  c = '-' || c = ':' || c = 'T' || c = '.' || c = 'Z'

/-- The tracking-id expression of sendFax and sendFaxDirect: WEB- plus
the ISO string with the separator characters removed, first fourteen
characters. -/
def generateTrackingId (d : UtcTime) : String :=
  "WEB-" ++ (((isoChars d).filter fun c => !(removedByRegex c)).take 14).asString

/-! ## The send endpoints -/

/-- One store directory document. -/
structure StoreRecord where
  storeNumber : String
  location : String
  faxNumber : String
deriving DecidableEq

/-- Request body of sendFax; a field is none when absent from the JSON
body. -/
structure SendFaxRequest where
  storeNumber : Option String
  pdfBase64 : Option String
  fileName : Option String
  type : Option String
deriving DecidableEq

/-- Request body of sendFaxDirect. -/
structure SendDirectRequest where
  faxNumber : Option String
  pdfBase64 : Option String
  fileName : Option String
  type : Option String
deriving DecidableEq

/-- JavaScript falsiness of an optional string field: absent or empty. -/
def falsyS (o : Option String) : Bool :=
  match o with
  | none => true
  | some s => s = ""

/-- The type tag logged: the request value, or the unknown tag when the
value is falsy. -/
def typeOrUnknown (o : Option String) : String :=
  if falsyS o then "unknown" else o.getD ""

/-- Keep only decimal digits, the replace of the non-digit class by the
empty string in sendFaxDirect. -/
def cleanDigits (s : String) : String :=
  (s.toList.filter Char.isDigit).asString

/-- Configuration visible to the send endpoints. -/
structure Config where
  fromEmail : String
  gatewayEmail : Option String
deriving DecidableEq

/-- One fax_log document. -/
structure LogEntry where
  storeNumber : Option String
  location : String
  faxNumber : String
  fileName : String
  type : String
  sentAt : Nat
  status : String
deriving DecidableEq

/-- The side effects a send request performs, in order. -/
inductive Effect where
  | createJob (key : String) (job : FaxJob)
  | sendMail (subject : String) (recipient : String)
  | logSent (storeNumber : Option String) (location : String)
deriving DecidableEq

/-- The HTTP response of a send endpoint. -/
structure SendResponse where
  statusCode : Nat
  success : Bool
  message : Option String
  trackingId : Option String
  errorText : Option String
  details : Option String
deriving DecidableEq

/-- A failure response with the given code and error text. -/
def errResponse (code : Nat) (e : String) : SendResponse :=
  { statusCode := code, success := false, message := none, trackingId := none,
    errorText := some e, details := none }

/-- Everything observable about one send request: the response, the
final collection states and the ordered effect list. -/
structure SendOutcome where
  response : SendResponse
  faxJobs : FaxJobs
  faxLog : List LogEntry
  effects : List Effect

/-- The Pending document sendFax stores under the fresh tracking id:
a full replace carrying trackingId, status, requesterEmail, the store
number and both timestamps. -/
def pendingJobStore (cfg : Config) (sn tid : String) (t : Nat) : FaxJob :=
  { trackingId := some tid, faxKey := none, status := some "Pending",
    requesterEmail := some cfg.fromEmail, storeNumber := some sn,
    faxNumber := none, createdAt := some t, updatedAt := some t }

/-- The Pending document sendFaxDirect stores under the fresh tracking
id: a full replace carrying trackingId, status, the cleaned fax number,
requesterEmail and both timestamps. -/
def pendingJobDirect (cfg : Config) (clean tid : String) (t : Nat) : FaxJob :=
  { trackingId := some tid, faxKey := none, status := some "Pending",
    requesterEmail := some cfg.fromEmail, storeNumber := none,
    faxNumber := some clean, createdAt := some t, updatedAt := some t }

/-- The sendFax endpoint.  `method` is the HTTP method, `stores` the
store directory, `now` the clock instant, `t` the server timestamp of
this request, `mailErr` the mail-transport outcome (none when sendMail
resolves, the thrown message when it rejects), `jobs` and `lg` the
prior faxJobs and fax_log states.  The only failure modelled inside
the try block is the sendMail rejection; it is caught by the handler
and answered with the five-hundred dispatch-failure body. -/
def sendFax (method : String) (req : SendFaxRequest) (stores : String → Option StoreRecord)
    (cfg : Config) (now : UtcTime) (t : Nat) (mailErr : Option String)
    (jobs : FaxJobs) (lg : List LogEntry) : SendOutcome :=
  if method ≠ "POST" then
    { response := errResponse 405 "Method not allowed",
      faxJobs := jobs, faxLog := lg, effects := [] }
  else if falsyS req.storeNumber || falsyS req.pdfBase64 || falsyS req.fileName then
    { response := errResponse 400 "Missing required fields: storeNumber, pdfBase64, fileName",
      faxJobs := jobs, faxLog := lg, effects := [] }
  else
    match stores (req.storeNumber.getD "") with
    | none =>
      { response := errResponse 404 ("Store " ++ req.storeNumber.getD "" ++ " not found"),
        faxJobs := jobs, faxLog := lg, effects := [] }
    | some store =>
      if falsyS cfg.gatewayEmail then
        { response := errResponse 500 "Fax gateway email not configured",
          faxJobs := jobs, faxLog := lg, effects := [] }
      else
        match mailErr with
        | some e =>
          { response := { errResponse 500 "Failed to send fax" with details := some e },
            faxJobs := setJob jobs (generateTrackingId now)
              (pendingJobStore cfg (req.storeNumber.getD "") (generateTrackingId now) t),
            faxLog := lg,
            effects :=
              [Effect.createJob (generateTrackingId now)
                 (pendingJobStore cfg (req.storeNumber.getD "") (generateTrackingId now) t),
               Effect.sendMail (req.storeNumber.getD "" ++ " " ++ generateTrackingId now)
                 (cfg.gatewayEmail.getD "")] }
        | none =>
          { response :=
              { statusCode := 200, success := true,
                message := some ("Fax sent to " ++ store.location ++ " ("
                  ++ req.storeNumber.getD "" ++ ")"),
                trackingId := some (generateTrackingId now), errorText := none,
                details := none },
            faxJobs := setJob jobs (generateTrackingId now)
              (pendingJobStore cfg (req.storeNumber.getD "") (generateTrackingId now) t),
            faxLog := lg ++
              [{ storeNumber := some (req.storeNumber.getD ""), location := store.location,
                 faxNumber := store.faxNumber, fileName := req.fileName.getD "",
                 type := typeOrUnknown req.type, sentAt := t, status := "sent" }],
            effects :=
              [Effect.createJob (generateTrackingId now)
                 (pendingJobStore cfg (req.storeNumber.getD "") (generateTrackingId now) t),
               Effect.sendMail (req.storeNumber.getD "" ++ " " ++ generateTrackingId now)
                 (cfg.gatewayEmail.getD ""),
               Effect.logSent (some (req.storeNumber.getD "")) store.location] }

/-- The sendFaxDirect endpoint, same shape as sendFax with the digit
cleaning and length check in place of the directory lookup. -/
def sendFaxDirect (method : String) (req : SendDirectRequest) (cfg : Config)
    (now : UtcTime) (t : Nat) (mailErr : Option String)
    (jobs : FaxJobs) (lg : List LogEntry) : SendOutcome :=
  if method ≠ "POST" then
    { response := errResponse 405 "Method not allowed",
      faxJobs := jobs, faxLog := lg, effects := [] }
  else if falsyS req.faxNumber || falsyS req.pdfBase64 || falsyS req.fileName then
    { response := errResponse 400 "Missing required fields: faxNumber, pdfBase64, fileName",
      faxJobs := jobs, faxLog := lg, effects := [] }
  else if (cleanDigits (req.faxNumber.getD "")).length < 10 then
    { response := errResponse 400 "Invalid fax number - must be at least 10 digits",
      faxJobs := jobs, faxLog := lg, effects := [] }
  else if falsyS cfg.gatewayEmail then
    { response := errResponse 500 "Fax gateway email not configured",
      faxJobs := jobs, faxLog := lg, effects := [] }
  else
    match mailErr with
    | some e =>
      { response := { errResponse 500 "Failed to send fax" with details := some e },
        faxJobs := setJob jobs (generateTrackingId now)
          (pendingJobDirect cfg (cleanDigits (req.faxNumber.getD ""))
            (generateTrackingId now) t),
        faxLog := lg,
        effects :=
          [Effect.createJob (generateTrackingId now)
             (pendingJobDirect cfg (cleanDigits (req.faxNumber.getD ""))
               (generateTrackingId now) t),
           Effect.sendMail ("Fax#" ++ cleanDigits (req.faxNumber.getD "") ++ " "
             ++ generateTrackingId now) (cfg.gatewayEmail.getD "")] }
    | none =>
      { response :=
          { statusCode := 200, success := true,
            message := some ("Fax sent to " ++ cleanDigits (req.faxNumber.getD "")),
            trackingId := some (generateTrackingId now), errorText := none,
            details := none },
        faxJobs := setJob jobs (generateTrackingId now)
          (pendingJobDirect cfg (cleanDigits (req.faxNumber.getD ""))
            (generateTrackingId now) t),
        faxLog := lg ++
          [{ storeNumber := none, location := "Direct Fax",
             faxNumber := cleanDigits (req.faxNumber.getD ""),
             fileName := req.fileName.getD "", type := typeOrUnknown req.type,
             sentAt := t, status := "sent" }],
        effects :=
          [Effect.createJob (generateTrackingId now)
             (pendingJobDirect cfg (cleanDigits (req.faxNumber.getD ""))
               (generateTrackingId now) t),
           Effect.sendMail ("Fax#" ++ cleanDigits (req.faxNumber.getD "") ++ " "
             ++ generateTrackingId now) (cfg.gatewayEmail.getD ""),
           Effect.logSent none "Direct Fax"] }

/-! ## The webhook channel -/

/-- Modelled from the spec: the webhook HTTP handler is not present
under src (only the senders and the poller are); section 4.3 of the
spec describes applyWebhookUpdate of a tracking id, a status and an
optional fax key as a merge-write onto the job keyed by the tracking
id, setting status, faxKey if supplied, and updatedAt, while leaving
all other fields untouched (merge-write is upsert when absent). -/
def applyWebhookUpdate (tid status : String) (faxKey : Option String) (t : Nat)
    (s : FaxJobs) : FaxJobs :=
  let base := (s tid).getD emptyJob
  setJob s tid
    { base with status := some status,
                faxKey := match faxKey with | some fk => some fk | none => base.faxKey,
                updatedAt := some t }

/-! ## Concrete sample inputs used by witnesses and counterexamples -/

/-- A concrete clock instant; its tracking id is WEB-20260205125013. -/
def sampleTime : UtcTime := ⟨2026, 2, 5, 12, 50, 13, 123⟩

/-- A concrete store directory document. -/
def sampleStore : StoreRecord := ⟨"#023", "Springfield", "15551234567"⟩

/-- A one-document store directory. -/
def sampleStores : String → Option StoreRecord :=
  fun k => if k = "#023" then some sampleStore else none

/-- A concrete configuration with the gateway address present. -/
def sampleCfg : Config :=
  { fromEmail := "handbook@company.com", gatewayEmail := some "fax@gateway.example" }

/-- A concrete valid sendFax request body. -/
def sampleReq : SendFaxRequest :=
  { storeNumber := some "#023", pdfBase64 := some "JVBERi0=",
    fileName := some "Handbook.pdf", type := some "signed" }

/-- A concrete valid sendFaxDirect request body. -/
def sampleDirectReq : SendDirectRequest :=
  { faxNumber := some "1-555-341-2222", pdfBase64 := some "JVBERi0=",
    fileName := some "Blank.pdf", type := some "blank" }

/-- A concrete sendFax request whose store number is absent from the
directory. -/
def unknownStoreReq : SendFaxRequest :=
  { storeNumber := some "#999", pdfBase64 := some "JVBERi0=",
    fileName := some "Handbook.pdf", type := some "signed" }

/-! ## Helper lemmas about the reconciliation writes -/

theorem mergeFaxKey_absorb (u : PolledUpdate) (t1 t2 : Nat) (j : Option FaxJob) :
    mergeFaxKeyWrite u t2 (some (mergeFaxKeyWrite u t1 j)) = mergeFaxKeyWrite u t2 j := by
  cases j <;> rfl

theorem mergeTracking_absorb (u : PolledUpdate) (t1 t2 : Nat) (j : Option FaxJob) :
    mergeTrackingWrite u t2 (some (mergeTrackingWrite u t1 j)) = mergeTrackingWrite u t2 j := by
  cases j <;> rfl

theorem mergeTracking_mergeFaxKey (u : PolledUpdate) (t1 t2 : Nat) (j : Option FaxJob) :
    mergeTrackingWrite u t2 (some (mergeFaxKeyWrite u t1 j)) = mergeTrackingWrite u t2 j := by
  cases j <;> rfl

theorem mergeChain (u : PolledUpdate) (t1 t2 : Nat) (j : Option FaxJob) :
    mergeTrackingWrite u t2 (some (mergeFaxKeyWrite u t2
        (some (mergeTrackingWrite u t1 (some (mergeFaxKeyWrite u t1 j))))))
      = mergeTrackingWrite u t2 (some (mergeFaxKeyWrite u t2 j)) := by
  cases j <;> rfl

theorem applyPolled_twice (u : PolledUpdate) (t1 t2 : Nat) (s : FaxJobs) :
    applyPolled u t2 (applyPolled u t1 s) = applyPolled u t2 s := by
  by_cases hT : u.trackingId = ""
  · funext k
    simp only [applyPolled, hT, if_true, setJob]
    by_cases hk : k = u.faxKey <;> simp [hk, mergeFaxKey_absorb]
  · by_cases hTK : u.trackingId = u.faxKey
    · have hF : ¬(u.faxKey = "") := by rw [← hTK]; exact hT
      funext k
      simp only [applyPolled, hTK, hF, if_false, setJob]
      by_cases hk : k = u.faxKey <;> simp [hk, mergeChain]
    · have hFT : ¬(u.faxKey = u.trackingId) := fun h => hTK h.symm
      funext k
      simp only [applyPolled, hT, if_false, setJob]
      by_cases hk : k = u.trackingId <;> by_cases hk2 : k = u.faxKey <;>
        simp [hk, hk2, hTK, hFT, mergeFaxKey_absorb, mergeTracking_absorb,
              mergeTracking_mergeFaxKey]

theorem applyPolled_at_faxKey (u : PolledUpdate) (t : Nat) (s : FaxJobs) :
    ∃ jb, applyPolled u t s u.faxKey = some jb
      ∧ jb.faxKey = some u.faxKey ∧ jb.status = some u.status
      ∧ jb.requesterEmail = some u.requesterEmail := by
  by_cases hT : u.trackingId = ""
  · exact ⟨mergeFaxKeyWrite u t (s u.faxKey), by simp [applyPolled, setJob, hT], rfl, rfl, rfl⟩
  · by_cases hKT : u.faxKey = u.trackingId
    · refine ⟨mergeTrackingWrite u t (some (mergeFaxKeyWrite u t (s u.faxKey))), ?_, rfl, rfl, rfl⟩
      simp only [applyPolled, setJob, hT, if_false]
      rw [if_pos hKT, if_pos hKT.symm]
    · exact ⟨mergeFaxKeyWrite u t (s u.faxKey),
        by simp [applyPolled, setJob, hT, hKT], rfl, rfl, rfl⟩

theorem applyPolled_at_trackingId (u : PolledUpdate) (t : Nat) (s : FaxJobs)
    (hT : ¬(u.trackingId = "")) :
    ∃ jb, applyPolled u t s u.trackingId = some jb
      ∧ jb.faxKey = some u.faxKey ∧ jb.trackingId = some u.trackingId
      ∧ jb.status = some u.status ∧ jb.requesterEmail = some u.requesterEmail := by
  refine ⟨mergeTrackingWrite u t
      (setJob s u.faxKey (mergeFaxKeyWrite u t (s u.faxKey)) u.trackingId),
    ?_, rfl, rfl, rfl, rfl⟩
  simp [applyPolled, setJob, hT]

/-! ## Helper lemmas for digit rendering and the status token -/


theorem digitChar_isDigit (d : Nat) (h : d < 10) : (digitChar d).isDigit = true := by
  interval_cases d <;> decide

theorem toDecimalAux_all (fuel : Nat) : ∀ n, (toDecimalAux fuel n).all Char.isDigit = true := by
  induction fuel with
  | zero => intro n; simp [toDecimalAux]
  | succ f ih =>
    intro n
    simp only [toDecimalAux]
    by_cases h : n < 10
    · simp [h, digitChar_isDigit n h]
    · simp [h, List.all_append, ih (n / 10),
        digitChar_isDigit (n % 10) (Nat.mod_lt _ (by norm_num))]

theorem toDecimalAux_length : ∀ (fuel k n : Nat), n < fuel → n < 10 ^ k → 1 ≤ k →
    (toDecimalAux fuel n).length ≤ k := by
  intro fuel
  induction fuel with
  | zero => intro k n h; omega
  | succ f ih =>
    intro k n hn hk h1
    simp only [toDecimalAux]
    by_cases h : n < 10
    · rw [if_pos h]
      simpa using h1
    · have hk2 : 2 ≤ k := by
        rcases Nat.lt_or_ge k 2 with hlt | hge
        · have hk1 : k = 1 := by omega
          subst hk1
          simp at hk
          omega
        · exact hge
      have hdivf : n / 10 < f := by
        have h2 : n / 10 < n := Nat.div_lt_self (by omega) (by norm_num)
        omega
      have hdivk : n / 10 < 10 ^ (k - 1) := by
        rw [Nat.div_lt_iff_lt_mul (by norm_num : (0:Nat) < 10)]
        have hp : 10 ^ (k - 1) * 10 = 10 ^ k := by
          rw [← pow_succ]
          congr 1
          omega
        omega
      have hlen := ih (k - 1) (n / 10) hdivf hdivk (by omega)
      simp only [h, if_false, List.length_append, List.length_cons, List.length_nil]
      omega

theorem natChars_length (k n : Nat) (hk : n < 10 ^ k) (h1 : 1 ≤ k) :
    (natChars n).length ≤ k :=
  toDecimalAux_length (n + 1) k n (by omega) hk h1

theorem natChars_all (n : Nat) : (natChars n).all Char.isDigit = true :=
  toDecimalAux_all (n + 1) n

theorem padTo_length (k n : Nat) (hk : n < 10 ^ k) (h1 : 1 ≤ k) :
    (padTo k n).length = k := by
  have := natChars_length k n hk h1
  simp only [padTo, List.length_append, List.length_replicate]
  omega

theorem padTo_all (k n : Nat) : (padTo k n).all Char.isDigit = true := by
  have := natChars_all n
  simp only [padTo, List.all_append, List.all_replicate]
  simp_all

theorem isDigit_not_removed (c : Char) (h : c.isDigit = true) :
    removedByRegex c = false := by
  by_contra hc
  have hc2 : removedByRegex c = true := by
    cases hr : removedByRegex c
    · exact absurd hr hc
    · rfl
  simp only [removedByRegex, Bool.or_eq_true, decide_eq_true_eq] at hc2
  rcases hc2 with ((((h1 | h1) | h1) | h1) | h1) <;> subst h1 <;> simp at h

theorem filter_keep_digits (l : List Char) (h : l.all Char.isDigit = true) :
    l.filter (fun c => !(removedByRegex c)) = l := by
  rw [List.filter_eq_self]
  intro a ha
  have hd : a.isDigit = true := by
    rw [List.all_eq_true] at h
    exact h a ha
  simp [isDigit_not_removed a hd]



theorem parseAfterTag_word (l k st : List Char) (h : parseAfterTag l = some (k, st)) :
    st.all isWordChar = true := by
  unfold parseAfterTag at h
  split at h
  · dsimp only at h
    split at h
    · exact absurd h (by simp)
    · rename_i after heq hne
      injection h with h2
      injection h2 with hk hst
      subst hst
      exact List.all_takeWhile
  · exact absurd h (by simp)

theorem matchFaxdone_word (l k st : List Char) (h : matchFaxdone l = some (k, st)) :
    st.all isWordChar = true := by
  induction l with
  | nil => exact absurd h (by simp [matchFaxdone])
  | cons c rest ih =>
    simp only [matchFaxdone] at h
    by_cases htag : (c :: rest).take 8 = faxdoneTag
    · rw [if_pos htag] at h
      cases hp : parseAfterTag ((c :: rest).drop 8) with
      | none => rw [hp] at h; exact ih h
      | some r =>
        rw [hp] at h
        injection h with h2
        cases r with
        | mk rk rst =>
          cases h2
          exact parseAfterTag_word _ _ _ hp
    · rw [if_neg htag] at h
      exact ih h

theorem mem_jsTrim (l : List Char) (a : Char) (ha : a ∈ jsTrim l) : a ∈ l := by
  unfold jsTrim at ha
  rw [List.mem_reverse] at ha
  have h1 := (List.dropWhile_sublist (l := (l.dropWhile isJsSpace).reverse) isJsSpace).mem ha
  rw [List.mem_reverse] at h1
  exact (List.dropWhile_sublist isJsSpace).mem h1

theorem jsTrim_all (l : List Char) (p : Char → Bool) (h : l.all p = true) :
    (jsTrim l).all p = true := by
  rw [List.all_eq_true] at h ⊢
  intro a ha
  exact h a (mem_jsTrim l a ha)

theorem parsePolled_status_word (subject body : String) (u : PolledUpdate)
    (h : parsePolled subject body = some u) : u.status.toList.all isWordChar = true := by
  unfold parsePolled at h
  cases hm : matchFaxdone subject.toList with
  | none => rw [hm] at h; exact absurd h (by simp)
  | some r =>
    rw [hm] at h
    cases r with
    | mk k st =>
      simp only at h
      injection h with h2
      subst h2
      show ((jsTrim st).asString.toList.all isWordChar) = true
      have hst := matchFaxdone_word _ _ _ hm
      have : (jsTrim st).asString.toList = jsTrim st := rfl
      rw [this]
      exact jsTrim_all st isWordChar hst

/-! ## Helper lemmas about the send endpoints -/


theorem sendFax_valid_faxJobs (req : SendFaxRequest) (stores : String → Option StoreRecord)
    (store : StoreRecord) (cfg : Config) (now : UtcTime) (t : Nat) (mailErr : Option String)
    (jobs : FaxJobs) (lg : List LogEntry)
    (h1 : falsyS req.storeNumber = false) (h2 : falsyS req.pdfBase64 = false)
    (h3 : falsyS req.fileName = false)
    (h4 : stores (req.storeNumber.getD "") = some store)
    (h5 : falsyS cfg.gatewayEmail = false) :
    (sendFax "POST" req stores cfg now t mailErr jobs lg).faxJobs
      = setJob jobs (generateTrackingId now)
          (pendingJobStore cfg (req.storeNumber.getD "") (generateTrackingId now) t) := by
  simp only [sendFax]
  rw [if_neg (by simp), if_neg (by simp [h1, h2, h3]), h4]
  dsimp only
  rw [if_neg (by simp [h5])]
  cases mailErr <;> rfl

theorem sendFax_valid_effects (req : SendFaxRequest) (stores : String → Option StoreRecord)
    (store : StoreRecord) (cfg : Config) (now : UtcTime) (t : Nat) (mailErr : Option String)
    (jobs : FaxJobs) (lg : List LogEntry)
    (h1 : falsyS req.storeNumber = false) (h2 : falsyS req.pdfBase64 = false)
    (h3 : falsyS req.fileName = false)
    (h4 : stores (req.storeNumber.getD "") = some store)
    (h5 : falsyS cfg.gatewayEmail = false) :
    ∃ rest, (sendFax "POST" req stores cfg now t mailErr jobs lg).effects
      = Effect.createJob (generateTrackingId now)
          (pendingJobStore cfg (req.storeNumber.getD "") (generateTrackingId now) t)
        :: Effect.sendMail (req.storeNumber.getD "" ++ " " ++ generateTrackingId now)
          (cfg.gatewayEmail.getD "")
        :: rest := by
  simp only [sendFax]
  rw [if_neg (by simp), if_neg (by simp [h1, h2, h3]), h4]
  dsimp only
  rw [if_neg (by simp [h5])]
  cases mailErr <;> exact ⟨_, rfl⟩

theorem sendFax_mailfail (req : SendFaxRequest) (stores : String → Option StoreRecord)
    (store : StoreRecord) (cfg : Config) (now : UtcTime) (t : Nat) (e : String)
    (jobs : FaxJobs) (lg : List LogEntry)
    (h1 : falsyS req.storeNumber = false) (h2 : falsyS req.pdfBase64 = false)
    (h3 : falsyS req.fileName = false)
    (h4 : stores (req.storeNumber.getD "") = some store)
    (h5 : falsyS cfg.gatewayEmail = false) :
    sendFax "POST" req stores cfg now t (some e) jobs lg
      = { response := { errResponse 500 "Failed to send fax" with details := some e },
          faxJobs := setJob jobs (generateTrackingId now)
            (pendingJobStore cfg (req.storeNumber.getD "") (generateTrackingId now) t),
          faxLog := lg,
          effects :=
            [Effect.createJob (generateTrackingId now)
               (pendingJobStore cfg (req.storeNumber.getD "") (generateTrackingId now) t),
             Effect.sendMail (req.storeNumber.getD "" ++ " " ++ generateTrackingId now)
               (cfg.gatewayEmail.getD "")] } := by
  simp only [sendFax]
  rw [if_neg (by simp), if_neg (by simp [h1, h2, h3]), h4]
  dsimp only
  rw [if_neg (by simp [h5])]

theorem sendFaxDirect_valid_faxJobs (req : SendDirectRequest) (cfg : Config)
    (now : UtcTime) (t : Nat) (mailErr : Option String)
    (jobs : FaxJobs) (lg : List LogEntry)
    (h1 : falsyS req.faxNumber = false) (h2 : falsyS req.pdfBase64 = false)
    (h3 : falsyS req.fileName = false)
    (h4 : 10 ≤ (cleanDigits (req.faxNumber.getD "")).length)
    (h5 : falsyS cfg.gatewayEmail = false) :
    (sendFaxDirect "POST" req cfg now t mailErr jobs lg).faxJobs
      = setJob jobs (generateTrackingId now)
          (pendingJobDirect cfg (cleanDigits (req.faxNumber.getD ""))
            (generateTrackingId now) t) := by
  simp only [sendFaxDirect]
  rw [if_neg (by simp), if_neg (by simp [h1, h2, h3]), if_neg (by omega),
      if_neg (by simp [h5])]
  cases mailErr <;> rfl

theorem sendFaxDirect_valid_effects (req : SendDirectRequest) (cfg : Config)
    (now : UtcTime) (t : Nat) (mailErr : Option String)
    (jobs : FaxJobs) (lg : List LogEntry)
    (h1 : falsyS req.faxNumber = false) (h2 : falsyS req.pdfBase64 = false)
    (h3 : falsyS req.fileName = false)
    (h4 : 10 ≤ (cleanDigits (req.faxNumber.getD "")).length)
    (h5 : falsyS cfg.gatewayEmail = false) :
    ∃ rest, (sendFaxDirect "POST" req cfg now t mailErr jobs lg).effects
      = Effect.createJob (generateTrackingId now)
          (pendingJobDirect cfg (cleanDigits (req.faxNumber.getD ""))
            (generateTrackingId now) t)
        :: Effect.sendMail ("Fax#" ++ cleanDigits (req.faxNumber.getD "") ++ " "
            ++ generateTrackingId now) (cfg.gatewayEmail.getD "")
        :: rest := by
  simp only [sendFaxDirect]
  rw [if_neg (by simp), if_neg (by simp [h1, h2, h3]), if_neg (by omega),
      if_neg (by simp [h5])]
  cases mailErr <;> exact ⟨_, rfl⟩

/-! ## The claims -/


/-- C1, counterexample: the webhook channel sets status Success on the
key W1; a subsequently processed stale polled message supplying Pending
for the same key then overwrites it, so the final status is Pending and
not Success, violating the no-regression invariant as stated. -/
theorem claim_C1_counterexample :
    ((applyWebhookUpdate "W1" "Success" none 1 emptyJobs) "W1").map FaxJob.status
      = some (some "Success")
    ∧ ((processMessage "FAXDONE:W1:Pending" "user@x.com|" 2
        (applyWebhookUpdate "W1" "Success" none 1 emptyJobs)) "W1").map FaxJob.status
      = some (some "Pending")
    ∧ ¬(((processMessage "FAXDONE:W1:Pending" "user@x.com|" 2
        (applyWebhookUpdate "W1" "Success" none 1 emptyJobs)) "W1").map FaxJob.status
      = some (some "Success")) := by
  decide

/-- C1, amended: the source merge enforces field presence, not value
precedence: a processed polled update always sets the status of the
record keyed by its fax key to the polled status token, whatever value
the record held before, so a stale Pending update overwrites a
terminal Success instead of being ignored. -/
theorem claim_C1_amended (subject body : String) (u : PolledUpdate) (t : Nat)
    (s : FaxJobs) (h : parsePolled subject body = some u) :
    ∃ jb, processMessage subject body t s u.faxKey = some jb
      ∧ jb.status = some u.status := by
  obtain ⟨jb, h1, _, h3, _⟩ := applyPolled_at_faxKey u t s
  exact ⟨jb, by simp [processMessage, h, h1], h3⟩

/-- Witness for the amended C1 at the counterexample scenario. -/
theorem claim_C1_amended_witness :
    ∃ jb, processMessage "FAXDONE:W1:Pending" "user@x.com|" 2
        (applyWebhookUpdate "W1" "Success" none 1 emptyJobs) "W1" = some jb
      ∧ jb.status = some "Pending" :=
  claim_C1_amended "FAXDONE:W1:Pending" "user@x.com|"
    ⟨"W1", "Pending", "user@x.com", ""⟩ 2
    (applyWebhookUpdate "W1" "Success" none 1 emptyJobs) (by decide)

/-- C2: a polled message parsed to the update u merge-writes the record
keyed by the fax key with that fax key and status, and, when the parsed
tracking id is nonempty, also merge-writes the record keyed by the
tracking id with the fax key, the tracking id and the status. -/
theorem claim_C2_polled_merge (subject body : String) (u : PolledUpdate) (t : Nat)
    (s : FaxJobs) (h : parsePolled subject body = some u) :
    (∃ jb, processMessage subject body t s u.faxKey = some jb
       ∧ jb.faxKey = some u.faxKey ∧ jb.status = some u.status)
    ∧ (¬(u.trackingId = "") →
       ∃ jb, processMessage subject body t s u.trackingId = some jb
         ∧ jb.faxKey = some u.faxKey ∧ jb.trackingId = some u.trackingId
         ∧ jb.status = some u.status) := by
  constructor
  · obtain ⟨jb, h1, h2, h3, _⟩ := applyPolled_at_faxKey u t s
    exact ⟨jb, by simp [processMessage, h, h1], h2, h3⟩
  · intro hT
    obtain ⟨jb, h1, h2, h3, h4, _⟩ := applyPolled_at_trackingId u t s hT
    exact ⟨jb, by simp [processMessage, h, h1], h2, h3, h4⟩

/-- Witness for C2 at the concrete message of the specification. -/
theorem claim_C2_polled_merge_witness :
    (∃ jb, processMessage "FAXDONE:K1:Success" "user@x.com|WEB-20260205125013." 7
        emptyJobs "K1" = some jb
       ∧ jb.faxKey = some "K1" ∧ jb.status = some "Success")
    ∧ (¬(("WEB-20260205125013" : String) = "") →
       ∃ jb, processMessage "FAXDONE:K1:Success" "user@x.com|WEB-20260205125013." 7
          emptyJobs "WEB-20260205125013" = some jb
         ∧ jb.faxKey = some "K1" ∧ jb.trackingId = some "WEB-20260205125013"
         ∧ jb.status = some "Success") :=
  claim_C2_polled_merge "FAXDONE:K1:Success" "user@x.com|WEB-20260205125013."
    ⟨"K1", "Success", "user@x.com", "WEB-20260205125013"⟩ 7 emptyJobs (by decide)

/-- C5: processing the same polled message twice yields the same final
faxJobs state as processing it once: the replay, at whatever sweep
timestamp it runs, lands exactly the state that a single processing at
that timestamp produces. -/
theorem claim_C5_polled_idempotent (subject body : String) (t1 t2 : Nat) (s : FaxJobs) :
    processMessage subject body t2 (processMessage subject body t1 s)
      = processMessage subject body t2 s := by
  unfold processMessage
  cases h : parsePolled subject body with
  | none => rfl
  | some u => exact applyPolled_twice u t1 t2 s

/-- C8, counterexample: a record created by sendFax carries the
configured requester email; a later polled update for its tracking id
overwrites that field with the email parsed from the message body. -/
theorem claim_C8_counterexample :
    (((sendFax "POST" sampleReq sampleStores sampleCfg sampleTime 10 none emptyJobs
        []).faxJobs "WEB-20260205125013").map FaxJob.requesterEmail
      = some (some "handbook@company.com"))
    ∧ (((processMessage "FAXDONE:K9:Success" "other@x.com|WEB-20260205125013." 20
        (sendFax "POST" sampleReq sampleStores sampleCfg sampleTime 10 none emptyJobs
          []).faxJobs) "WEB-20260205125013").map FaxJob.requesterEmail
      = some (some "other@x.com"))
    ∧ ¬(("other@x.com" : String) = "handbook@company.com") := by
  decide

/-- C8, amended: requesterEmail is set at creation and left unchanged
by webhook updates, but every polled reconciliation write overwrites it
with the email parsed from the message body. -/
theorem claim_C8_amended (subject body : String) (u : PolledUpdate) (t : Nat)
    (s : FaxJobs) (h : parsePolled subject body = some u) :
    (∃ jb, processMessage subject body t s u.faxKey = some jb
       ∧ jb.requesterEmail = some u.requesterEmail)
    ∧ (∀ (tid st2 : String) (fk : Option String) (t2 : Nat) (s2 : FaxJobs)
        (k : String) (j : FaxJob), s2 k = some j →
        ∃ j2, applyWebhookUpdate tid st2 fk t2 s2 k = some j2
          ∧ j2.requesterEmail = j.requesterEmail) := by
  constructor
  · obtain ⟨jb, h1, _, _, h4⟩ := applyPolled_at_faxKey u t s
    exact ⟨jb, by simp [processMessage, h, h1], h4⟩
  · intro tid st2 fk t2 s2 k j hj
    by_cases hk : k = tid
    · subst hk
      cases fk with
      | none =>
        exact ⟨{ j with status := some st2, updatedAt := some t2 },
          by simp [applyWebhookUpdate, setJob, hj], rfl⟩
      | some f =>
        exact ⟨{ j with status := some st2, faxKey := some f, updatedAt := some t2 },
          by simp [applyWebhookUpdate, setJob, hj], rfl⟩
    · exact ⟨j, by simp [applyWebhookUpdate, setJob, hk, hj], rfl⟩

/-- Witness for the amended C8 at the counterexample scenario. -/
theorem claim_C8_amended_witness :
    (∃ jb, processMessage "FAXDONE:K9:Success" "other@x.com|WEB-20260205125013." 20
        (sendFax "POST" sampleReq sampleStores sampleCfg sampleTime 10 none emptyJobs
          []).faxJobs "K9" = some jb
       ∧ jb.requesterEmail = some "other@x.com")
    ∧ (∀ (tid st2 : String) (fk : Option String) (t2 : Nat) (s2 : FaxJobs)
        (k : String) (j : FaxJob), s2 k = some j →
        ∃ j2, applyWebhookUpdate tid st2 fk t2 s2 k = some j2
          ∧ j2.requesterEmail = j.requesterEmail) :=
  claim_C8_amended "FAXDONE:K9:Success" "other@x.com|WEB-20260205125013."
    ⟨"K9", "Success", "other@x.com", "WEB-20260205125013"⟩ 20
    (sendFax "POST" sampleReq sampleStores sampleCfg sampleTime 10 none emptyJobs
      []).faxJobs (by decide)

/-- C9, counterexample: the polled channel stores whatever word token
the subject carries after the second colon; the token Retrying is none
of Pending, Success, Failed, yet it is written to the status field. -/
theorem claim_C9_counterexample :
    ((processMessage "FAXDONE:K1:Retrying" "a@b.c|" 3 emptyJobs) "K1").map FaxJob.status
      = some (some "Retrying")
    ∧ ¬(("Retrying" : String) = "Pending")
    ∧ ¬(("Retrying" : String) = "Success")
    ∧ ¬(("Retrying" : String) = "Failed") := by
  decide


/-- C9, amended: creation writes status Pending; a polled update writes
the word-character token parsed from the subject verbatim, which is any
run of word characters and is not limited to Pending, Success, Failed.
When that token is one of the three enum values the field holds one of
the three, but the code itself enforces no such restriction. -/
theorem claim_C9_amended (req : SendFaxRequest) (stores : String → Option StoreRecord)
    (store : StoreRecord) (cfg : Config) (now : UtcTime) (t : Nat) (mailErr : Option String)
    (jobs : FaxJobs) (lg : List LogEntry)
    (h1 : falsyS req.storeNumber = false) (h2 : falsyS req.pdfBase64 = false)
    (h3 : falsyS req.fileName = false)
    (h4 : stores (req.storeNumber.getD "") = some store)
    (h5 : falsyS cfg.gatewayEmail = false)
    (subject body : String) (u : PolledUpdate) (t2 : Nat) (s : FaxJobs)
    (h : parsePolled subject body = some u) :
    (∃ jb, (sendFax "POST" req stores cfg now t mailErr jobs lg).faxJobs
        (generateTrackingId now) = some jb ∧ jb.status = some "Pending")
    ∧ (∃ jb, processMessage subject body t2 s u.faxKey = some jb
        ∧ jb.status = some u.status)
    ∧ u.status.toList.all isWordChar = true := by
  refine ⟨?_, ?_, parsePolled_status_word subject body u h⟩
  · rw [sendFax_valid_faxJobs req stores store cfg now t mailErr jobs lg h1 h2 h3 h4 h5]
    exact ⟨pendingJobStore cfg (req.storeNumber.getD "") (generateTrackingId now) t,
      by simp [setJob], rfl⟩
  · obtain ⟨jb, hj1, _, hj3, _⟩ := applyPolled_at_faxKey u t2 s
    exact ⟨jb, by simp [processMessage, h, hj1], hj3⟩

/-- Witness for the amended C9 at the counterexample token Retrying. -/
theorem claim_C9_amended_witness :
    ((∃ jb, (sendFax "POST" sampleReq sampleStores sampleCfg sampleTime 10 none emptyJobs
        []).faxJobs (generateTrackingId sampleTime) = some jb ∧ jb.status = some "Pending")
    ∧ (∃ jb, processMessage "FAXDONE:K1:Retrying" "a@b.c|" 3 emptyJobs "K1" = some jb
        ∧ jb.status = some "Retrying")
    ∧ ("Retrying" : String).toList.all isWordChar = true) :=
  claim_C9_amended sampleReq sampleStores sampleStore sampleCfg sampleTime 10 none
    emptyJobs [] (by decide) (by decide) (by decide) (by decide) (by decide)
    "FAXDONE:K1:Retrying" "a@b.c|" ⟨"K1", "Retrying", "a@b.c", ""⟩ 3 emptyJobs (by decide)

/-- C3: for a valid send request of either endpoint, the effect list
starts with the creation of the Pending record under the fresh tracking
id, strictly before the mail dispatch effect, and after the call the
record is retrievable under the tracking id. -/
theorem claim_C3_create_before_dispatch (req : SendFaxRequest) (dreq : SendDirectRequest)
    (stores : String → Option StoreRecord) (store : StoreRecord) (cfg : Config)
    (now : UtcTime) (t : Nat) (mailErr : Option String) (jobs : FaxJobs) (lg : List LogEntry)
    (h1 : falsyS req.storeNumber = false) (h2 : falsyS req.pdfBase64 = false)
    (h3 : falsyS req.fileName = false)
    (h4 : stores (req.storeNumber.getD "") = some store)
    (h5 : falsyS cfg.gatewayEmail = false)
    (d1 : falsyS dreq.faxNumber = false) (d2 : falsyS dreq.pdfBase64 = false)
    (d3 : falsyS dreq.fileName = false)
    (d4 : 10 ≤ (cleanDigits (dreq.faxNumber.getD "")).length) :
    (∃ jb subj g rest,
       (sendFax "POST" req stores cfg now t mailErr jobs lg).effects
         = Effect.createJob (generateTrackingId now) jb :: Effect.sendMail subj g :: rest
       ∧ jb.status = some "Pending"
       ∧ (sendFax "POST" req stores cfg now t mailErr jobs lg).faxJobs
           (generateTrackingId now) = some jb)
    ∧ (∃ jb subj g rest,
       (sendFaxDirect "POST" dreq cfg now t mailErr jobs lg).effects
         = Effect.createJob (generateTrackingId now) jb :: Effect.sendMail subj g :: rest
       ∧ jb.status = some "Pending"
       ∧ (sendFaxDirect "POST" dreq cfg now t mailErr jobs lg).faxJobs
           (generateTrackingId now) = some jb) := by
  constructor
  · obtain ⟨rest, hr⟩ :=
      sendFax_valid_effects req stores store cfg now t mailErr jobs lg h1 h2 h3 h4 h5
    refine ⟨_, _, _, rest, hr, rfl, ?_⟩
    rw [sendFax_valid_faxJobs req stores store cfg now t mailErr jobs lg h1 h2 h3 h4 h5]
    simp [setJob]
  · obtain ⟨rest, hr⟩ :=
      sendFaxDirect_valid_effects dreq cfg now t mailErr jobs lg d1 d2 d3 d4 h5
    refine ⟨_, _, _, rest, hr, rfl, ?_⟩
    rw [sendFaxDirect_valid_faxJobs dreq cfg now t mailErr jobs lg d1 d2 d3 d4 h5]
    simp [setJob]

/-- Witness for C3 at the concrete sample requests. -/
theorem claim_C3_create_before_dispatch_witness :
    ((∃ jb subj g rest,
       (sendFax "POST" sampleReq sampleStores sampleCfg sampleTime 10 none emptyJobs
         []).effects
         = Effect.createJob (generateTrackingId sampleTime) jb
           :: Effect.sendMail subj g :: rest
       ∧ jb.status = some "Pending"
       ∧ (sendFax "POST" sampleReq sampleStores sampleCfg sampleTime 10 none emptyJobs
           []).faxJobs (generateTrackingId sampleTime) = some jb)
    ∧ (∃ jb subj g rest,
       (sendFaxDirect "POST" sampleDirectReq sampleCfg sampleTime 10 none emptyJobs
         []).effects
         = Effect.createJob (generateTrackingId sampleTime) jb
           :: Effect.sendMail subj g :: rest
       ∧ jb.status = some "Pending"
       ∧ (sendFaxDirect "POST" sampleDirectReq sampleCfg sampleTime 10 none emptyJobs
           []).faxJobs (generateTrackingId sampleTime) = some jb)) :=
  claim_C3_create_before_dispatch sampleReq sampleDirectReq sampleStores sampleStore
    sampleCfg sampleTime 10 none emptyJobs [] (by decide) (by decide) (by decide)
    (by decide) (by decide) (by decide) (by decide) (by decide) (by decide)

/-- C6: when the mail transport rejects after the Pending record was
created, the caller receives the five-hundred structured dispatch
failure, the Pending record is left in place, every other key is
untouched and the audit log gains no entry: there is no rollback. -/
theorem claim_C6_dispatch_failure (req : SendFaxRequest)
    (stores : String → Option StoreRecord) (store : StoreRecord) (cfg : Config)
    (now : UtcTime) (t : Nat) (e : String) (jobs : FaxJobs) (lg : List LogEntry)
    (h1 : falsyS req.storeNumber = false) (h2 : falsyS req.pdfBase64 = false)
    (h3 : falsyS req.fileName = false)
    (h4 : stores (req.storeNumber.getD "") = some store)
    (h5 : falsyS cfg.gatewayEmail = false) :
    (sendFax "POST" req stores cfg now t (some e) jobs lg).response.statusCode = 500
    ∧ (sendFax "POST" req stores cfg now t (some e) jobs lg).response.errorText
        = some "Failed to send fax"
    ∧ (sendFax "POST" req stores cfg now t (some e) jobs lg).response.details = some e
    ∧ (∃ jb, (sendFax "POST" req stores cfg now t (some e) jobs lg).faxJobs
        (generateTrackingId now) = some jb ∧ jb.status = some "Pending")
    ∧ (∀ k, ¬(k = generateTrackingId now) →
        (sendFax "POST" req stores cfg now t (some e) jobs lg).faxJobs k = jobs k)
    ∧ (sendFax "POST" req stores cfg now t (some e) jobs lg).faxLog = lg := by
  rw [sendFax_mailfail req stores store cfg now t e jobs lg h1 h2 h3 h4 h5]
  refine ⟨rfl, rfl, rfl,
    ⟨pendingJobStore cfg (req.storeNumber.getD "") (generateTrackingId now) t,
      by simp [setJob], rfl⟩, ?_, rfl⟩
  intro k hk
  simp [setJob, hk]

/-- Witness for C6 at the concrete sample request. -/
theorem claim_C6_dispatch_failure_witness :
    ((sendFax "POST" sampleReq sampleStores sampleCfg sampleTime 10 (some "ETIMEDOUT")
        emptyJobs []).response.statusCode = 500
    ∧ (sendFax "POST" sampleReq sampleStores sampleCfg sampleTime 10 (some "ETIMEDOUT")
        emptyJobs []).response.errorText = some "Failed to send fax"
    ∧ (sendFax "POST" sampleReq sampleStores sampleCfg sampleTime 10 (some "ETIMEDOUT")
        emptyJobs []).response.details = some "ETIMEDOUT"
    ∧ (∃ jb, (sendFax "POST" sampleReq sampleStores sampleCfg sampleTime 10
        (some "ETIMEDOUT") emptyJobs []).faxJobs (generateTrackingId sampleTime) = some jb
        ∧ jb.status = some "Pending")
    ∧ (∀ k, ¬(k = generateTrackingId sampleTime) →
        (sendFax "POST" sampleReq sampleStores sampleCfg sampleTime 10 (some "ETIMEDOUT")
          emptyJobs []).faxJobs k = emptyJobs k)
    ∧ (sendFax "POST" sampleReq sampleStores sampleCfg sampleTime 10 (some "ETIMEDOUT")
        emptyJobs []).faxLog = []) :=
  claim_C6_dispatch_failure sampleReq sampleStores sampleStore sampleCfg sampleTime 10
    "ETIMEDOUT" emptyJobs [] (by decide) (by decide) (by decide) (by decide) (by decide)

/-- C7: a well-formed request whose store number is absent from the
directory is answered with the four-hundred-four store-not-found error
and changes nothing: the faxJobs map is returned untouched and no side
effect is performed. -/
theorem claim_C7_unknown_store (req : SendFaxRequest)
    (stores : String → Option StoreRecord) (cfg : Config) (now : UtcTime) (t : Nat)
    (mailErr : Option String) (jobs : FaxJobs) (lg : List LogEntry)
    (h1 : falsyS req.storeNumber = false) (h2 : falsyS req.pdfBase64 = false)
    (h3 : falsyS req.fileName = false)
    (h4 : stores (req.storeNumber.getD "") = none) :
    (sendFax "POST" req stores cfg now t mailErr jobs lg).response.statusCode = 404
    ∧ (sendFax "POST" req stores cfg now t mailErr jobs lg).response.errorText
        = some ("Store " ++ req.storeNumber.getD "" ++ " not found")
    ∧ (sendFax "POST" req stores cfg now t mailErr jobs lg).faxJobs = jobs
    ∧ (sendFax "POST" req stores cfg now t mailErr jobs lg).faxLog = lg
    ∧ (sendFax "POST" req stores cfg now t mailErr jobs lg).effects = [] := by
  have hout : sendFax "POST" req stores cfg now t mailErr jobs lg
      = { response := errResponse 404 ("Store " ++ req.storeNumber.getD "" ++ " not found"),
          faxJobs := jobs, faxLog := lg, effects := [] } := by
    simp only [sendFax]
    rw [if_neg (by simp), if_neg (by simp [h1, h2, h3]), h4]
  rw [hout]
  exact ⟨rfl, rfl, rfl, rfl, rfl⟩

/-- Witness for C7 at the concrete unknown-store request. -/
theorem claim_C7_unknown_store_witness :
    ((sendFax "POST" unknownStoreReq sampleStores sampleCfg sampleTime 10 none emptyJobs
        []).response.statusCode = 404
    ∧ (sendFax "POST" unknownStoreReq sampleStores sampleCfg sampleTime 10 none emptyJobs
        []).response.errorText = some ("Store " ++ (unknownStoreReq.storeNumber.getD "")
          ++ " not found")
    ∧ (sendFax "POST" unknownStoreReq sampleStores sampleCfg sampleTime 10 none emptyJobs
        []).faxJobs = emptyJobs
    ∧ (sendFax "POST" unknownStoreReq sampleStores sampleCfg sampleTime 10 none emptyJobs
        []).faxLog = []
    ∧ (sendFax "POST" unknownStoreReq sampleStores sampleCfg sampleTime 10 none emptyJobs
        []).effects = []) :=
  claim_C7_unknown_store unknownStoreReq sampleStores sampleCfg sampleTime 10 none
    emptyJobs [] (by decide) (by decide) (by decide) (by decide)

/-- C10: the creation write is a full document replace, so when the
tracking ids of a store send and a direct send collide (same clock
second), the later creation erases the destination field of the
earlier one, in both orders. -/
theorem claim_C10_create_replaces (req : SendFaxRequest) (dreq : SendDirectRequest)
    (stores : String → Option StoreRecord) (store : StoreRecord) (cfg : Config)
    (now : UtcTime) (t1 t2 : Nat) (me1 me2 : Option String)
    (jobs : FaxJobs) (lg1 lg2 : List LogEntry)
    (h1 : falsyS req.storeNumber = false) (h2 : falsyS req.pdfBase64 = false)
    (h3 : falsyS req.fileName = false)
    (h4 : stores (req.storeNumber.getD "") = some store)
    (h5 : falsyS cfg.gatewayEmail = false)
    (d1 : falsyS dreq.faxNumber = false) (d2 : falsyS dreq.pdfBase64 = false)
    (d3 : falsyS dreq.fileName = false)
    (d4 : 10 ≤ (cleanDigits (dreq.faxNumber.getD "")).length) :
    (∃ jb, (sendFaxDirect "POST" dreq cfg now t2 me2
        (sendFax "POST" req stores cfg now t1 me1 jobs lg1).faxJobs lg2).faxJobs
        (generateTrackingId now) = some jb
      ∧ jb.storeNumber = none
      ∧ jb.faxNumber = some (cleanDigits (dreq.faxNumber.getD "")))
    ∧ (∃ jb, (sendFax "POST" req stores cfg now t1 me1
        (sendFaxDirect "POST" dreq cfg now t2 me2 jobs lg2).faxJobs lg1).faxJobs
        (generateTrackingId now) = some jb
      ∧ jb.faxNumber = none
      ∧ jb.storeNumber = some (req.storeNumber.getD "")) := by
  constructor
  · rw [sendFaxDirect_valid_faxJobs dreq cfg now t2 me2 _ lg2 d1 d2 d3 d4 h5]
    exact ⟨pendingJobDirect cfg (cleanDigits (dreq.faxNumber.getD ""))
        (generateTrackingId now) t2,
      by simp [setJob], rfl, rfl⟩
  · rw [sendFax_valid_faxJobs req stores store cfg now t1 me1 _ lg1 h1 h2 h3 h4 h5]
    exact ⟨pendingJobStore cfg (req.storeNumber.getD "") (generateTrackingId now) t1,
      by simp [setJob], rfl, rfl⟩

/-- Witness for C10 at the concrete sample requests. -/
theorem claim_C10_create_replaces_witness :
    ((∃ jb, (sendFaxDirect "POST" sampleDirectReq sampleCfg sampleTime 11 none
        (sendFax "POST" sampleReq sampleStores sampleCfg sampleTime 10 none emptyJobs
          []).faxJobs []).faxJobs (generateTrackingId sampleTime) = some jb
      ∧ jb.storeNumber = none
      ∧ jb.faxNumber = some (cleanDigits (sampleDirectReq.faxNumber.getD "")))
    ∧ (∃ jb, (sendFax "POST" sampleReq sampleStores sampleCfg sampleTime 10 none
        (sendFaxDirect "POST" sampleDirectReq sampleCfg sampleTime 11 none emptyJobs
          []).faxJobs []).faxJobs (generateTrackingId sampleTime) = some jb
      ∧ jb.faxNumber = none
      ∧ jb.storeNumber = some (sampleReq.storeNumber.getD ""))) :=
  claim_C10_create_replaces sampleReq sampleDirectReq sampleStores sampleStore sampleCfg
    sampleTime 10 11 none none emptyJobs [] [] (by decide) (by decide) (by decide)
    (by decide) (by decide) (by decide) (by decide) (by decide) (by decide)


theorem filter_sep_single (c : Char) (h : removedByRegex c = true) :
    List.filter (fun x => !(removedByRegex x)) [c] = [] := by
  simp [List.filter, h]

/-- C4: for a clock instant in the range toISOString prints with a
four-digit year and two-digit components (every real date satisfies
these bounds), the tracking id is the literal WEB- followed by exactly
fourteen decimal digit characters, the instant in the form
YYYYMMDDHHMMSS with no separators. -/
theorem claim_C4_trackingId_format (d : UtcTime) (hy : d.year ≤ 9999) (hmo : d.month ≤ 99)
    (hd : d.day ≤ 99) (hh : d.hour ≤ 99) (hmi : d.minute ≤ 99) (hs : d.second ≤ 99) :
    ∃ digits : List Char,
      generateTrackingId d = "WEB-" ++ digits.asString
      ∧ digits = padTo 4 d.year ++ padTo 2 d.month ++ padTo 2 d.day
          ++ padTo 2 d.hour ++ padTo 2 d.minute ++ padTo 2 d.second
      ∧ digits.length = 14
      ∧ digits.all Char.isDigit = true := by
  have p100 : (10:Nat) ^ 2 = 100 := by norm_num
  have p10000 : (10:Nat) ^ 4 = 10000 := by norm_num
  have l4 : (padTo 4 d.year).length = 4 := padTo_length 4 d.year (by omega) (by omega)
  have lmo : (padTo 2 d.month).length = 2 := padTo_length 2 d.month (by omega) (by omega)
  have ld : (padTo 2 d.day).length = 2 := padTo_length 2 d.day (by omega) (by omega)
  have lh : (padTo 2 d.hour).length = 2 := padTo_length 2 d.hour (by omega) (by omega)
  have lmi : (padTo 2 d.minute).length = 2 := padTo_length 2 d.minute (by omega) (by omega)
  have ls : (padTo 2 d.second).length = 2 := padTo_length 2 d.second (by omega) (by omega)
  refine ⟨padTo 4 d.year ++ padTo 2 d.month ++ padTo 2 d.day
      ++ padTo 2 d.hour ++ padTo 2 d.minute ++ padTo 2 d.second, ?_, rfl, ?_, ?_⟩
  · have hfilter : (isoChars d).filter (fun c => !(removedByRegex c))
        = (padTo 4 d.year ++ padTo 2 d.month ++ padTo 2 d.day ++ padTo 2 d.hour
            ++ padTo 2 d.minute ++ padTo 2 d.second) ++ padTo 3 d.ms := by
      simp only [isoChars, List.filter_append]
      rw [filter_keep_digits _ (padTo_all 4 d.year),
          filter_keep_digits _ (padTo_all 2 d.month),
          filter_keep_digits _ (padTo_all 2 d.day),
          filter_keep_digits _ (padTo_all 2 d.hour),
          filter_keep_digits _ (padTo_all 2 d.minute),
          filter_keep_digits _ (padTo_all 2 d.second),
          filter_keep_digits _ (padTo_all 3 d.ms),
          filter_sep_single '-' (by decide), filter_sep_single 'T' (by decide),
          filter_sep_single ':' (by decide), filter_sep_single '.' (by decide),
          filter_sep_single 'Z' (by decide)]
      simp [List.append_assoc]
    have hlen14 : (padTo 4 d.year ++ padTo 2 d.month ++ padTo 2 d.day ++ padTo 2 d.hour
        ++ padTo 2 d.minute ++ padTo 2 d.second).length = 14 := by
      simp only [List.length_append, l4, lmo, ld, lh, lmi, ls]
    have htake : ((padTo 4 d.year ++ padTo 2 d.month ++ padTo 2 d.day ++ padTo 2 d.hour
        ++ padTo 2 d.minute ++ padTo 2 d.second) ++ padTo 3 d.ms).take 14
        = padTo 4 d.year ++ padTo 2 d.month ++ padTo 2 d.day ++ padTo 2 d.hour
          ++ padTo 2 d.minute ++ padTo 2 d.second := by
      rw [← hlen14]
      exact List.take_left _ _
    simp only [generateTrackingId, hfilter, htake]
  · simp only [List.length_append, l4, lmo, ld, lh, lmi, ls]
  · simp only [List.all_append, padTo_all, Bool.and_self]


/-- Witness for C4 at the concrete sample instant. -/
theorem claim_C4_trackingId_format_witness :
    ∃ digits : List Char,
      generateTrackingId sampleTime = "WEB-" ++ digits.asString
      ∧ digits = padTo 4 sampleTime.year ++ padTo 2 sampleTime.month
          ++ padTo 2 sampleTime.day ++ padTo 2 sampleTime.hour
          ++ padTo 2 sampleTime.minute ++ padTo 2 sampleTime.second
      ∧ digits.length = 14
      ∧ digits.all Char.isDigit = true :=
  claim_C4_trackingId_format sampleTime (by decide) (by decide) (by decide) (by decide)
    (by decide) (by decide)

end Acknowledge
